import Mathlib

/-!
Shallow embedding of the DYHT front-end controller (`DyhtApp`, the TypeScript
class wired to the DOM controls) together with its cosmetic waveform render
loop.  DOM elements that the handlers read or mutate are modelled as explicit
fields of a `Dom` record; backend invocations (`invoke` over the Tauri bridge)
are modelled by passing the call's outcome (`Except Unit α`: `.error` means the
promise rejected) into the handler and by recording the issued call in a ghost
log.  Wall-clock reads (`Date.now()`, `new Date().toISOString()`,
`toLocaleTimeString`) are abstracted as an `Instant` argument.
-/

/-- Role of a chat message, the TS union type `'user' | 'assistant'`. -/
inductive Role where
  | user
  | assistant
deriving DecidableEq, Repr

/-- The `ChatMessage` interface of the source. -/
structure ChatMessage where
  role : Role
  content : String
  timestamp : String
deriving DecidableEq, Repr

/-- The `AudioClip` interface of the source. -/
structure AudioClip where
  id : String
  timestamp : String
  duration_ms : Nat
  file_path : String
  transcription : Option String
  waveform_data : Option (List ℚ)
  tags : List String
deriving DecidableEq, Repr

/-- A wall-clock instant: `Date.now()` in milliseconds together with the ISO
and locale string renderings the code embeds into data. -/
structure Instant where
  millis : Nat
  iso : String
  locale : String
deriving DecidableEq, Repr

/-- A named backend invocation with its payload, as issued through `invoke`. -/
inductive BackendCall where
  | init_agent
  | chat_with_agent (message : String)
  | process_audio (audioData : List Nat)
  | emergency_kill_switch
deriving DecidableEq, Repr

/-- The DOM elements the controller reads or mutates, reduced to the
attributes the handlers touch.  A `…Disabled` field is the `disabled`
attribute of the corresponding element. -/
structure Dom where
  sendBtnDisabled : Bool
  recordBtnDisabled : Bool
  stopBtnDisabled : Bool
  verifyAdminBtnDisabled : Bool
  killSwitchDisabled : Bool
  minimizeBtnDisabled : Bool
  closeBtnDisabled : Bool
  modelSelectDisabled : Bool
  themeSelectDisabled : Bool
  chatInputDisabled : Bool
  adminCodeDisabled : Bool
  voiceActivationDisabled : Bool
  autoTranscribeDisabled : Bool
  smartResponseDisabled : Bool
  chatInputValue : String
  adminCodeValue : String
  adminCodeBorderColor : String
  statusText : String
  statusColor : String
  clipsListHtml : String
  chatMessagesTexts : List String
  panelHeight : String
  panelDisplay : String
deriving DecidableEq, Repr

/-- The controller state: the `DyhtApp` fields, the modelled DOM, and ghost
logs of issued backend calls, `console.error` lines and blocking `alert`s.
`pendingAudio` counts `process_audio` invocations awaited but not yet
settled (the handler suspends at the `await`). -/
structure AppState where
  isRecording : Bool
  chatHistory : List ChatMessage
  audioClips : List AudioClip
  isAdminVerified : Bool
  dom : Dom
  calls : List BackendCall
  consoleErrors : List String
  alerts : List String
  pendingAudio : Nat
deriving DecidableEq, Repr

/-- Whitespace in the sense of JavaScript's `String.prototype.trim`
(the ASCII part plus NBSP, which covers every character the claims need). -/
def jsIsWhitespace (c : Char) : Bool :=
  c = ' ' || c = '\t' || c = '\n' || c = '\r' || c = '\x0b' || c = '\x0c' || c = ' '

/-- JavaScript `String.prototype.trim`. -/
def jsTrim (s : String) : String :=
  ⟨((s.data.dropWhile jsIsWhitespace).reverse.dropWhile jsIsWhitespace).reverse⟩

/-- `DyhtApp.addChatMessage`: push a `ChatMessage` onto `chatHistory` and
append its text to the `chat-messages` DOM container. -/
def addChatMessage (role : Role) (content : String) (t : Instant) (s : AppState) : AppState :=
  { s with
    chatHistory := s.chatHistory ++ [{ role := role, content := content, timestamp := t.iso }],
    dom := { s.dom with chatMessagesTexts := s.dom.chatMessagesTexts ++ [content] } }

/-- `DyhtApp.sendMessage`: trim the chat input; a falsy (empty) result is a
no-op; otherwise append the user message, clear the input, invoke
`chat_with_agent` and append the reply, or on rejection log the error and
append the fixed apology message.  `tSend` is the clock at the send,
`tReply` the clock when the invocation settles. -/
def sendMessage (tSend tReply : Instant) (outcome : Except Unit String) (s : AppState) : AppState :=
  let message := jsTrim s.dom.chatInputValue
  if message = "" then s
  else
    let s1 := addChatMessage .user message tSend s
    let s2 := { s1 with dom := { s1.dom with chatInputValue := "" } }
    let s3 := { s2 with calls := s2.calls ++ [.chat_with_agent message] }
    match outcome with
    | .ok response => addChatMessage .assistant response tReply s3
    | .error _ =>
        addChatMessage .assistant "Sorry, I encountered an error processing your message." tReply
          { s3 with consoleErrors := s3.consoleErrors ++ ["Chat error"] }

/-- `DyhtApp.loadInitialData`: invoke `init_agent`; on success append the
ready message, on rejection log and append the failure message. -/
def loadInitialData (t : Instant) (outcome : Except Unit Unit) (s : AppState) : AppState :=
  let s1 := { s with calls := s.calls ++ [.init_agent] }
  match outcome with
  | .ok _ => addChatMessage .assistant "Dwight AI agent initialized. Ready to assist!" t s1
  | .error _ =>
      addChatMessage .assistant "Failed to initialize agent. Please check the console for errors." t
        { s1 with consoleErrors := s1.consoleErrors ++ ["Failed to initialize agent"] }

/-- `DyhtApp.startRecording`: set the recording flag, disable the record
button, enable the stop button and show the recording status. -/
def startRecording (s : AppState) : AppState :=
  { s with
    isRecording := true,
    dom := { s.dom with
      recordBtnDisabled := true,
      stopBtnDisabled := false,
      statusText := "Recording...",
      statusColor := "#ff3333" } }

/-- First half of `DyhtApp.stopRecording`, up to the `await` of
`process_audio`: clear the recording flag, flip the two buttons, show the
processing status and issue the call with the placeholder sample bytes. -/
def stopRecordingBegin (s : AppState) : AppState :=
  { s with
    isRecording := false,
    dom := { s.dom with
      recordBtnDisabled := false,
      stopBtnDisabled := true,
      statusText := "Processing...",
      statusColor := "#ff6b35" },
    calls := s.calls ++ [.process_audio [1, 2, 3, 4, 5]],
    pendingAudio := s.pendingAudio + 1 }

/-- The `clips-list` innerHTML template literal of
`DyhtApp.updateAudioClipsList`, with the current locale time spliced in. -/
def clipItemHtml (t : Instant) : String :=
  "<div class=\"clip-item\"><div class=\"clip-info\"><div class=\"clip-name\">Recording "
    ++ t.locale
    ++ "</div><div class=\"clip-meta\">5.2s - Just now</div></div><div class=\"clip-actions\">"
    ++ "<button class=\"clip-btn play\">play</button><button class=\"clip-btn delete\">del</button></div></div>"

/-- `DyhtApp.updateAudioClipsList`: replace the clip list markup wholesale
and push one placeholder `AudioClip`. -/
def updateAudioClipsList (t : Instant) (s : AppState) : AppState :=
  { s with
    dom := { s.dom with clipsListHtml := clipItemHtml t },
    audioClips := s.audioClips ++ [{
      id := "clip-" ++ toString t.millis,
      timestamp := t.iso,
      duration_ms := 5200,
      file_path := "placeholder.wav",
      transcription := some "Placeholder transcription",
      waveform_data := some [],
      tags := ["recorded"] }] }

/-- Second half of `DyhtApp.stopRecording`, resuming after the `await`
settles: on success show Ready, append the transcription message and update
the clip list; on rejection only log the error (the catch has no other
body, so the Processing status text is never rolled back). -/
def stopRecordingSettle (t : Instant) (outcome : Except Unit String) (s : AppState) : AppState :=
  let s1 := { s with pendingAudio := s.pendingAudio - 1 }
  match outcome with
  | .ok transcription =>
      let s2 := { s1 with dom := { s1.dom with statusText := "Ready", statusColor := "#cccccc" } }
      let s3 := addChatMessage .assistant ("Audio processed: " ++ transcription) t s2
      updateAudioClipsList t s3
  | .error _ => { s1 with consoleErrors := s1.consoleErrors ++ ["Stop recording error"] }

/-- `DyhtApp.stopRecording` run to completion: the pre-await mutations
followed by the settling of the `process_audio` call. -/
def stopRecording (t : Instant) (outcome : Except Unit String) (s : AppState) : AppState :=
  stopRecordingSettle t outcome (stopRecordingBegin s)

/-- `DyhtApp.toggleRecording`, run to completion when it stops. -/
def toggleRecording (t : Instant) (outcome : Except Unit String) (s : AppState) : AppState :=
  if !s.isRecording then startRecording s else stopRecording t outcome s

/-- `DyhtApp.verifyAdminCode`: a falsy (empty) code alerts and aborts;
any other code is accepted — the flag is set, the input border turns green
and the granted alert fires.  The try body cannot throw, so the catch
branch (red border, invalid-code alert) never executes. -/
def verifyAdminCode (adminCode : String) (s : AppState) : AppState :=
  if adminCode = "" then { s with alerts := s.alerts ++ ["Please enter an admin code"] }
  else
    { s with
      isAdminVerified := true,
      dom := { s.dom with adminCodeBorderColor := "#00ff00" },
      alerts := s.alerts ++ ["Admin access granted"] }

/-- `DyhtApp.switchModel`: log and append a confirmation chat message. -/
def switchModel (model : String) (t : Instant) (s : AppState) : AppState :=
  addChatMessage .assistant ("Switched to " ++ model ++ " model") t s

/-- `DyhtApp.switchTheme`: only logs; no state change. -/
def switchTheme (_theme : String) (s : AppState) : AppState := s

/-- Effect of `document.querySelectorAll('button:not(#kill-switch)')`
followed by disabling each hit: every button except the kill switch is
disabled; selects, text inputs and checkboxes are not buttons and are left
alone. -/
def disableAllButtonsExceptKill (d : Dom) : Dom :=
  { d with
    sendBtnDisabled := true,
    recordBtnDisabled := true,
    stopBtnDisabled := true,
    verifyAdminBtnDisabled := true,
    minimizeBtnDisabled := true,
    closeBtnDisabled := true }

/-- `DyhtApp.emergencyKillSwitch`: `confirm(...)` is modelled by the
`confirmed` argument.  Declining does nothing.  Confirming issues the
`emergency_kill_switch` call; on success a confirmation message is appended
and every non-kill-switch button is disabled; on rejection the catch only
logs. -/
def emergencyKillSwitch (confirmed : Bool) (t : Instant) (outcome : Except Unit Unit)
    (s : AppState) : AppState :=
  if confirmed then
    let s1 := { s with calls := s.calls ++ [.emergency_kill_switch] }
    match outcome with
    | .ok _ =>
        let s2 := addChatMessage .assistant
          "Emergency shutdown activated. All AI functions disabled." t s1
        { s2 with dom := disableAllButtonsExceptKill s2.dom }
    | .error _ => { s1 with consoleErrors := s1.consoleErrors ++ ["Emergency shutdown error"] }
  else s

/-- `DyhtApp.minimizePanel`: collapse the panel height (visual only). -/
def minimizePanel (s : AppState) : AppState :=
  { s with dom := { s.dom with panelHeight := "40px" } }

/-- `DyhtApp.closePanel`: hide the panel (visual only). -/
def closePanel (s : AppState) : AppState :=
  { s with dom := { s.dom with panelDisplay := "none" } }

/-- Modelled from the spec: the initial enabled/disabled state of the DOM
controls is set by the application's `index.html`, which is not among the
source files.  The spec's testable property "Triggering the kill switch
without confirmation leaves all controls enabled" and its §4.2 operation
table presuppose that every control starts enabled, so all `disabled`
attributes start `false`; the `DyhtApp` fields start as in the class
field initializers (`isRecording = false`, empty histories,
`isAdminVerified = false`). -/
def initState : AppState :=
  { isRecording := false,
    chatHistory := [],
    audioClips := [],
    isAdminVerified := false,
    dom := {
      sendBtnDisabled := false,
      recordBtnDisabled := false,
      stopBtnDisabled := false,
      verifyAdminBtnDisabled := false,
      killSwitchDisabled := false,
      minimizeBtnDisabled := false,
      closeBtnDisabled := false,
      modelSelectDisabled := false,
      themeSelectDisabled := false,
      chatInputDisabled := false,
      adminCodeDisabled := false,
      voiceActivationDisabled := false,
      autoTranscribeDisabled := false,
      smartResponseDisabled := false,
      chatInputValue := "",
      adminCodeValue := "",
      adminCodeBorderColor := "",
      statusText := "Ready",
      statusColor := "#cccccc",
      clipsListHtml := "",
      chatMessagesTexts := [],
      panelHeight := "",
      panelDisplay := "" },
    calls := [],
    consoleErrors := [],
    alerts := [],
    pendingAudio := 0 }

/-- Decidable equality of backend outcomes. -/
instance {ε α : Type} [DecidableEq ε] [DecidableEq α] : DecidableEq (Except ε α) := fun x y =>
  match x, y with
  | .ok a, .ok b =>
      if h : a = b then .isTrue (by rw [h]) else .isFalse (by simp [h])
  | .ok _, .error _ => .isFalse (by simp)
  | .error _, .ok _ => .isFalse (by simp)
  | .error a, .error b =>
      if h : a = b then .isTrue (by rw [h]) else .isFalse (by simp [h])

/-- A user- or runtime-originated event hitting the controller.  Backend
outcomes and clock reads travel with the event.  `recordClick` is a click on
the record button (`toggleRecording`); when it stops a recording, the stop
only begins — the matching `audioSettle` event delivers the settling of the
`process_audio` call, during which the single-threaded UI stays responsive. -/
inductive Event where
  | initLoad (t : Instant) (outcome : Except Unit Unit)
  | typeChat (text : String)
  | typeAdmin (text : String)
  | sendMsg (tSend tReply : Instant) (outcome : Except Unit String)
  | recordClick
  | stopClick
  | audioSettle (t : Instant) (outcome : Except Unit String)
  | verifyAdminClick
  | modelChange (model : String) (t : Instant)
  | themeChange (theme : String)
  | killSwitchClick (confirmed : Bool) (t : Instant) (outcome : Except Unit Unit)
  | minimizeClick
  | closeClick
  | voiceActivationToggle (enabled : Bool)
  | autoTranscribeToggle (enabled : Bool)
  | smartResponseToggle (enabled : Bool)
deriving DecidableEq, Repr

/-- Whether an event can fire: a disabled button or input does not deliver
DOM events; `sendMsg` is also reachable through Enter on the chat input, so
it is guarded by the input, not the send button; an `audioSettle` needs an
in-flight `process_audio` call. -/
def eventEnabled (s : AppState) : Event → Bool
  | .initLoad _ _ => true
  | .typeChat _ => !s.dom.chatInputDisabled
  | .typeAdmin _ => !s.dom.adminCodeDisabled
  | .sendMsg _ _ _ => !s.dom.chatInputDisabled
  | .recordClick => !s.dom.recordBtnDisabled
  | .stopClick => !s.dom.stopBtnDisabled
  | .audioSettle _ _ => s.pendingAudio != 0
  | .verifyAdminClick => !s.dom.verifyAdminBtnDisabled
  | .modelChange _ _ => !s.dom.modelSelectDisabled
  | .themeChange _ => !s.dom.themeSelectDisabled
  | .killSwitchClick _ _ _ => !s.dom.killSwitchDisabled
  | .minimizeClick => !s.dom.minimizeBtnDisabled
  | .closeClick => !s.dom.closeBtnDisabled
  | .voiceActivationToggle _ => !s.dom.voiceActivationDisabled
  | .autoTranscribeToggle _ => !s.dom.autoTranscribeDisabled
  | .smartResponseToggle _ => !s.dom.smartResponseDisabled

/-- The controller's reaction to one event, as wired in
`setupEventListeners`.  A click on the record button dispatches through
`toggleRecording`; a click on the stop button calls `stopRecording`
directly; both stop paths run up to the `await`. -/
def step (s : AppState) : Event → AppState
  | .initLoad t outcome => loadInitialData t outcome s
  | .typeChat text => { s with dom := { s.dom with chatInputValue := text } }
  | .typeAdmin text => { s with dom := { s.dom with adminCodeValue := text } }
  | .sendMsg tSend tReply outcome => sendMessage tSend tReply outcome s
  | .recordClick => if !s.isRecording then startRecording s else stopRecordingBegin s
  | .stopClick => stopRecordingBegin s
  | .audioSettle t outcome => stopRecordingSettle t outcome s
  | .verifyAdminClick => verifyAdminCode s.dom.adminCodeValue s
  | .modelChange model t => switchModel model t s
  | .themeChange theme => switchTheme theme s
  | .killSwitchClick confirmed t outcome => emergencyKillSwitch confirmed t outcome s
  | .minimizeClick => minimizePanel s
  | .closeClick => closePanel s
  | .voiceActivationToggle _ => s
  | .autoTranscribeToggle _ => s
  | .smartResponseToggle _ => s

/-- States reachable from `initState` by enabled events satisfying `P`. -/
inductive ReachableFrom (P : Event → Prop) : AppState → Prop where
  | init : ReachableFrom P initState
  | next {s : AppState} {e : Event} : ReachableFrom P s → P e → eventEnabled s e = true →
      ReachableFrom P (step s e)

/-- The recording lifecycle phases of the spec's state machine. -/
inductive RecPhase where
  | Idle
  | Recording
  | Processing
deriving DecidableEq, Repr

/-- The lifecycle phase of a state: Processing while a `process_audio` call
is in flight, otherwise Recording when the flag is set, otherwise Idle. -/
def phase (s : AppState) : RecPhase :=
  if s.pendingAudio != 0 then .Processing
  else if s.isRecording then .Recording
  else .Idle

/-- Events whose handler is a successfully confirmed kill switch. -/
def isKillSuccess : Event → Bool
  | .killSwitchClick true _ (.ok _) => true
  | _ => false

/-- Events that touch the recording lifecycle (the record and stop buttons
and the settling of a `process_audio` call); every other event leaves the
lifecycle phase untouched. -/
def phaseRelevant : Event → Bool
  | .recordClick => true
  | .stopClick => true
  | .audioSettle _ _ => true
  | _ => false

/-- Abstraction of the JavaScript floating-point trigonometry the render
loop uses: `Math.sin`, `Math.cos` and `Math.PI` become an arbitrary
interpretation over the rationals, so the structural content of the loop
can be settled without a floating-point model. -/
structure Trig where
  sin : ℚ → ℚ
  cos : ℚ → ℚ
  pi : ℚ

/-- A 2D-context drawing command, as issued by `drawCircularWaveform`. -/
inductive DrawCmd where
  | clearRect (x y w h : ℚ)
  | setStrokeStyle (color : String)
  | setLineWidth (w : ℚ)
  | beginPath
  | arc (x y radius a0 a1 : ℚ)
  | moveTo (x y : ℚ)
  | lineTo (x y : ℚ)
  | closePath
  | stroke
deriving DecidableEq, Repr

/-- The body of the `for` loop in `drawCircularWaveform` at counter value
`i` (degrees): angle, flag-dependent amplitude, the deformed-circle point,
and `moveTo` for the first iteration, `lineTo` otherwise. -/
def wavePointCmd (trig : Trig) (centerX centerY radius time : ℚ) (isRecording : Bool)
    (i : Nat) : DrawCmd :=
  let angle := (i : ℚ) * trig.pi / 180
  let amplitude :=
    if isRecording then
      trig.sin (time * 3 + (i : ℚ) * 0.1) * 20 + trig.sin (time * 7 + (i : ℚ) * 0.05) * 10
    else trig.sin (time + (i : ℚ) * 0.02) * 5
  let x := centerX + trig.cos angle * (radius + amplitude)
  let y := centerY + trig.sin angle * (radius + amplitude)
  if i = 0 then .moveTo x y else .lineTo x y

/-- The `for (let i = 0; i < 360; i += 5)` loop of `drawCircularWaveform`,
emitting one path command per iteration. -/
def waveLoop (trig : Trig) (centerX centerY radius time : ℚ) (isRecording : Bool)
    (i : Nat) : List DrawCmd :=
  if h : i < 360 then
    wavePointCmd trig centerX centerY radius time isRecording i ::
      waveLoop trig centerX centerY radius time isRecording (i + 5)
  else []
termination_by 360 - i

/-- One animation tick of `startLiveWaveform`'s `drawCircularWaveform`
closure: clear the canvas, stroke the background circle of radius 80, then
build and stroke the closed deformed-circle path.  `time` is
`Date.now() * 0.001`; `width`/`height` are the canvas dimensions. -/
def drawCircularWaveform (trig : Trig) (width height time : ℚ) (isRecording : Bool) :
    List DrawCmd :=
  let centerX := width / 2
  let centerY := height / 2
  let radius : ℚ := 80
  [DrawCmd.clearRect 0 0 width height,
   DrawCmd.setStrokeStyle "#333333", DrawCmd.setLineWidth 2, DrawCmd.beginPath,
   DrawCmd.arc centerX centerY radius 0 (2 * trig.pi), DrawCmd.stroke,
   DrawCmd.setStrokeStyle "#00ff00", DrawCmd.setLineWidth 3, DrawCmd.beginPath]
  ++ waveLoop trig centerX centerY radius time isRecording 0
  ++ [DrawCmd.closePath, DrawCmd.stroke]

/-- Written from the spec's words: the radial offset at angular position
`deg` (degrees) is a sum of sine terms of the elapsed time — two
superimposed frequencies with the higher amplitudes 20 and 10 when the
recording flag is true, a single frequency with the lower amplitude 5
otherwise. -/
def specRadialOffset (trig : Trig) (time : ℚ) (recording : Bool) (deg : ℚ) : ℚ :=
  if recording then
    20 * trig.sin (3 * time + deg / 10) + 10 * trig.sin (7 * time + deg / 20)
  else 5 * trig.sin (time + deg / 50)

/-- Written from the spec's words: the `k`-th sample of the deformed
circle, at angular position `5 * k` degrees, radius 80 plus the radial
offset; the path starts with a move and continues with lines. -/
def specSamplePoint (trig : Trig) (width height time : ℚ) (recording : Bool)
    (k : Nat) : DrawCmd :=
  let deg : ℚ := 5 * k
  let theta := deg * trig.pi / 180
  let r := 80 + specRadialOffset trig time recording deg
  let x := width / 2 + trig.cos theta * r
  let y := height / 2 + trig.sin theta * r
  if k = 0 then .moveTo x y else .lineTo x y

/-- Written from the spec's words: one tick clears the surface, strokes the
reference circle of fixed radius 80, then strokes the deformed circle
sampled at a fixed 5-degree step — 72 samples covering 0–360°, the path
closed back to its start. -/
def specFrame (trig : Trig) (width height time : ℚ) (recording : Bool) : List DrawCmd :=
  [DrawCmd.clearRect 0 0 width height,
   DrawCmd.setStrokeStyle "#333333", DrawCmd.setLineWidth 2, DrawCmd.beginPath,
   DrawCmd.arc (width / 2) (height / 2) 80 0 (2 * trig.pi), DrawCmd.stroke,
   DrawCmd.setStrokeStyle "#00ff00", DrawCmd.setLineWidth 3, DrawCmd.beginPath]
  ++ (List.range 72).map (specSamplePoint trig width height time recording)
  ++ [DrawCmd.closePath, DrawCmd.stroke]

/-- C3: starting a recording sets the recording flag, disables the record
control and enables the stop control; stopping a recording (with the
backend returning transcription `r`) reverses the two controls and appends
exactly one placeholder `AudioClip` to the clip list and exactly one
assistant message containing the returned transcription. -/
theorem recording_start_stop_effects (s : AppState) (t : Instant) (r : String) :
    (startRecording s).isRecording = true
    ∧ (startRecording s).dom.recordBtnDisabled = true
    ∧ (startRecording s).dom.stopBtnDisabled = false
    ∧ (stopRecording t (.ok r) s).dom.recordBtnDisabled = false
    ∧ (stopRecording t (.ok r) s).dom.stopBtnDisabled = true
    ∧ (stopRecording t (.ok r) s).audioClips = s.audioClips ++ [{
        id := "clip-" ++ toString t.millis,
        timestamp := t.iso,
        duration_ms := 5200,
        file_path := "placeholder.wav",
        transcription := some "Placeholder transcription",
        waveform_data := some [],
        tags := ["recorded"] }]
    ∧ (stopRecording t (.ok r) s).chatHistory =
        s.chatHistory ++ [{ role := .assistant, content := "Audio processed: " ++ r, timestamp := t.iso }] := by
  refine ⟨rfl, rfl, rfl, ?_, ?_, ?_, ?_⟩ <;>
    simp [stopRecording, stopRecordingBegin, stopRecordingSettle, addChatMessage,
      updateAudioClipsList]

/-- C6: with the chat input holding "hello" and the backend resolving to
"hi", sending appends exactly two transcript entries, in order the user
message "hello" and the assistant message "hi". -/
theorem sendMessage_hello_hi (s : AppState) (tSend tReply : Instant)
    (h : s.dom.chatInputValue = "hello") :
    (sendMessage tSend tReply (.ok "hi") s).chatHistory =
      s.chatHistory ++ [{ role := .user, content := "hello", timestamp := tSend.iso },
        { role := .assistant, content := "hi", timestamp := tReply.iso }] := by
  have htrim : jsTrim "hello" = "hello" := by decide
  simp [sendMessage, h, htrim, addChatMessage]

/-- Witness for C6 at a concrete state. -/
theorem sendMessage_hello_hi_witness :
    (sendMessage ⟨0, "t0", "l0"⟩ ⟨1, "t1", "l1"⟩ (.ok "hi")
        { initState with dom := { initState.dom with chatInputValue := "hello" } }).chatHistory =
      [{ role := .user, content := "hello", timestamp := "t0" },
       { role := .assistant, content := "hi", timestamp := "t1" }] :=
  sendMessage_hello_hi _ _ _ rfl

/-- C7: an input that is empty or all whitespace makes the send operation a
strict no-op: the state, the transcript and the ghost call log are all
unchanged. -/
theorem sendMessage_whitespace_noop (s : AppState) (tSend tReply : Instant)
    (outcome : Except Unit String)
    (h : ∀ c ∈ s.dom.chatInputValue.data, jsIsWhitespace c = true) :
    sendMessage tSend tReply outcome s = s := by
  have htrim : jsTrim s.dom.chatInputValue = "" := by
    have h1 : s.dom.chatInputValue.data.dropWhile jsIsWhitespace = [] :=
      List.dropWhile_eq_nil_iff.mpr h
    simp [jsTrim, h1]
  simp [sendMessage, htrim]

/-- Witness for C7 at a concrete whitespace-only input. -/
theorem sendMessage_whitespace_noop_witness :
    sendMessage ⟨0, "t0", "l0"⟩ ⟨1, "t1", "l1"⟩ (.ok "hi")
        { initState with dom := { initState.dom with chatInputValue := " \t " } } =
      { initState with dom := { initState.dom with chatInputValue := " \t " } } :=
  sendMessage_whitespace_noop _ _ _ _ (by decide)

/-- C8: an empty admin code only alerts and aborts (the whole state apart
from the alert log is unchanged, so the verified flag is untouched); any
non-empty code is always accepted — flag set, border green, granted alert —
so the failure path (red border, "Invalid admin code" alert) never runs. -/
theorem verifyAdminCode_spec (s : AppState) (code : String) (hc : code ≠ "") :
    verifyAdminCode "" s = { s with alerts := s.alerts ++ ["Please enter an admin code"] }
    ∧ (verifyAdminCode code s).isAdminVerified = true
    ∧ (verifyAdminCode code s).alerts = s.alerts ++ ["Admin access granted"]
    ∧ (verifyAdminCode code s).dom.adminCodeBorderColor = "#00ff00" := by
  refine ⟨by simp [verifyAdminCode], ?_, ?_, ?_⟩ <;> simp [verifyAdminCode, hc]

/-- Witness for C8 at the concrete code "1234". -/
theorem verifyAdminCode_spec_witness :
    verifyAdminCode "" initState =
      { initState with alerts := initState.alerts ++ ["Please enter an admin code"] }
    ∧ (verifyAdminCode "1234" initState).isAdminVerified = true
    ∧ (verifyAdminCode "1234" initState).alerts = initState.alerts ++ ["Admin access granted"]
    ∧ (verifyAdminCode "1234" initState).dom.adminCodeBorderColor = "#00ff00" :=
  verifyAdminCode_spec initState "1234" (by decide)

/-- C10: when the user confirms but the `emergency_kill_switch` call
rejects, the handler only issues the call and logs the error: the
transcript and the whole DOM (in particular every control's disabled
state) are exactly as before. -/
theorem emergencyKillSwitch_failure_only_logs (s : AppState) (t : Instant) :
    emergencyKillSwitch true t (.error ()) s =
      { s with
        calls := s.calls ++ [.emergency_kill_switch],
        consoleErrors := s.consoleErrors ++ ["Emergency shutdown error"] }
    ∧ (emergencyKillSwitch true t (.error ()) s).chatHistory = s.chatHistory
    ∧ (emergencyKillSwitch true t (.error ()) s).dom = s.dom := by
  refine ⟨?_, ?_, ?_⟩ <;> simp [emergencyKillSwitch]

/-- C1 counterexample: from the initial state, confirming the kill switch
while the backend call rejects appends no confirmation message (though the
call was issued), and even when the call succeeds the model selector — an
interactive control that is not a button — stays enabled, as does the chat
input. -/
theorem killSwitch_claim_counterexample :
    (emergencyKillSwitch true ⟨0, "", ""⟩ (.error ()) initState).chatHistory = []
    ∧ (emergencyKillSwitch true ⟨0, "", ""⟩ (.error ()) initState).calls = [.emergency_kill_switch]
    ∧ (emergencyKillSwitch true ⟨0, "", ""⟩ (.ok ()) initState).dom.modelSelectDisabled = false
    ∧ (emergencyKillSwitch true ⟨0, "", ""⟩ (.ok ()) initState).dom.chatInputDisabled = false := by
  decide

/-- C1 amended: declining leaves the state untouched; confirming issues
exactly one `emergency_kill_switch` call whatever the outcome; when the
call additionally succeeds, exactly one confirmation assistant message is
appended and every button other than the kill switch becomes disabled,
while the kill switch and the non-button controls (selects, text inputs,
checkboxes) keep their previous enabled state. -/
theorem killSwitch_amended (s : AppState) (t : Instant) (o : Except Unit Unit) :
    emergencyKillSwitch false t o s = s
    ∧ (emergencyKillSwitch true t o s).calls = s.calls ++ [.emergency_kill_switch]
    ∧ (emergencyKillSwitch true t (.ok ()) s).chatHistory = s.chatHistory ++
        [{ role := .assistant,
           content := "Emergency shutdown activated. All AI functions disabled.",
           timestamp := t.iso }]
    ∧ (emergencyKillSwitch true t (.ok ()) s).dom =
        { disableAllButtonsExceptKill s.dom with
          chatMessagesTexts := s.dom.chatMessagesTexts ++
            ["Emergency shutdown activated. All AI functions disabled."] } := by
  refine ⟨by simp [emergencyKillSwitch], ?_, ?_, ?_⟩
  · cases o <;> simp [emergencyKillSwitch, addChatMessage]
  · simp [emergencyKillSwitch, addChatMessage]
  · simp [emergencyKillSwitch, addChatMessage, disableAllButtonsExceptKill]

/-- C2 counterexample: a rejecting `process_audio` call is caught and
logged, but no fallback message reaches the transcript — the chat history
is exactly as before the failure. -/
theorem backendFailure_fallback_counterexample :
    (stopRecording ⟨0, "", ""⟩ (.error ()) (startRecording initState)).consoleErrors =
      ["Stop recording error"]
    ∧ (stopRecording ⟨0, "", ""⟩ (.error ()) (startRecording initState)).chatHistory = [] := by
  decide

/-- C2 amended: every rejected backend call is caught and logged, but only
`init_agent` and `chat_with_agent` failures additionally append a generic
fallback message to the transcript; `process_audio` and
`emergency_kill_switch` failures leave the transcript unchanged. -/
theorem backendFailure_amended (s : AppState) (t t2 : Instant)
    (h : jsTrim s.dom.chatInputValue ≠ "") :
    (loadInitialData t (.error ()) s).consoleErrors =
      s.consoleErrors ++ ["Failed to initialize agent"]
    ∧ (loadInitialData t (.error ()) s).chatHistory = s.chatHistory ++
        [{ role := .assistant,
           content := "Failed to initialize agent. Please check the console for errors.",
           timestamp := t.iso }]
    ∧ (sendMessage t t2 (.error ()) s).consoleErrors = s.consoleErrors ++ ["Chat error"]
    ∧ (sendMessage t t2 (.error ()) s).chatHistory = s.chatHistory ++
        [{ role := .user, content := jsTrim s.dom.chatInputValue, timestamp := t.iso },
         { role := .assistant,
           content := "Sorry, I encountered an error processing your message.",
           timestamp := t2.iso }]
    ∧ (stopRecording t (.error ()) s).consoleErrors =
        s.consoleErrors ++ ["Stop recording error"]
    ∧ (stopRecording t (.error ()) s).chatHistory = s.chatHistory
    ∧ (emergencyKillSwitch true t (.error ()) s).consoleErrors =
        s.consoleErrors ++ ["Emergency shutdown error"]
    ∧ (emergencyKillSwitch true t (.error ()) s).chatHistory = s.chatHistory := by
  refine ⟨?_, ?_, ?_, ?_, ?_, ?_, ?_, ?_⟩ <;>
    simp [loadInitialData, sendMessage, h, addChatMessage, stopRecording,
      stopRecordingBegin, stopRecordingSettle, emergencyKillSwitch]

/-- Witness for the C2 amendment at a concrete state holding "hello". -/
theorem backendFailure_amended_witness :
    (stopRecording ⟨0, "t", "l"⟩ (.error ())
        { initState with dom := { initState.dom with chatInputValue := "hello" } }).chatHistory =
      ({ initState with dom := { initState.dom with chatInputValue := "hello" } } : AppState).chatHistory
    ∧ (sendMessage ⟨0, "t", "l"⟩ ⟨1, "t2", "l2"⟩ (.error ())
        { initState with dom := { initState.dom with chatInputValue := "hello" } }).consoleErrors =
      ({ initState with dom := { initState.dom with chatInputValue := "hello" } } : AppState).consoleErrors ++ ["Chat error"] :=
  ⟨(backendFailure_amended _ ⟨0, "t", "l"⟩ ⟨1, "t2", "l2"⟩ (by decide)).2.2.2.2.2.1,
   (backendFailure_amended _ ⟨0, "t", "l"⟩ ⟨1, "t2", "l2"⟩ (by decide)).2.2.1⟩

/-- C5 counterexample: the state reached by starting a recording and then
confirming a successful kill switch is reachable, has the recording flag
still set, yet its stop button is disabled (and its record button is also
disabled), violating the claimed invariant. -/
theorem recording_invariant_counterexample :
    ReachableFrom (fun _ => True)
      (step (step initState .recordClick) (.killSwitchClick true ⟨0, "", ""⟩ (.ok ())))
    ∧ (step (step initState .recordClick)
        (.killSwitchClick true ⟨0, "", ""⟩ (.ok ()))).isRecording = true
    ∧ (step (step initState .recordClick)
        (.killSwitchClick true ⟨0, "", ""⟩ (.ok ()))).dom.stopBtnDisabled = true := by
  refine ⟨?_, by decide, by decide⟩
  exact ReachableFrom.next
    (ReachableFrom.next ReachableFrom.init trivial (by decide)) trivial (by decide)

/-- C5 amended: along every event sequence that contains no confirmed and
successful kill switch, every reachable state with the recording flag set
has the stop button enabled and the record button disabled. -/
theorem recording_invariant_no_kill (s : AppState)
    (hr : ReachableFrom (fun e => isKillSuccess e = false) s)
    (hrec : s.isRecording = true) :
    s.dom.stopBtnDisabled = false ∧ s.dom.recordBtnDisabled = true := by
  induction hr with
  | init => simp [initState] at hrec
  | next hprev hP hen ih =>
      rename_i s' e
      cases e with
      | initLoad t o =>
          cases o <;> simp [step, loadInitialData, addChatMessage] at hrec ⊢ <;> exact ih hrec
      | typeChat text => simp [step] at hrec ⊢; exact ih hrec
      | typeAdmin text => simp [step] at hrec ⊢; exact ih hrec
      | sendMsg t1 t2 o =>
          by_cases hm : jsTrim s'.dom.chatInputValue = "" <;> cases o <;>
            simp [step, sendMessage, hm, addChatMessage] at hrec ⊢ <;> exact ih hrec
      | recordClick =>
          by_cases hb : s'.isRecording = true
          · simp [step, hb, stopRecordingBegin] at hrec
          · simp at hb
            simp [step, hb, startRecording]
      | stopClick => simp [step, stopRecordingBegin] at hrec
      | audioSettle t o =>
          cases o <;>
            simp [step, stopRecordingSettle, addChatMessage, updateAudioClipsList]
              at hrec ⊢ <;> exact ih hrec
      | verifyAdminClick =>
          by_cases hc : s'.dom.adminCodeValue = "" <;>
            simp [step, verifyAdminCode, hc] at hrec ⊢ <;> exact ih hrec
      | modelChange m t => simp [step, switchModel, addChatMessage] at hrec ⊢; exact ih hrec
      | themeChange th => simp [step, switchTheme] at hrec ⊢; exact ih hrec
      | killSwitchClick c t o =>
          cases c with
          | false => simp [step, emergencyKillSwitch] at hrec ⊢; exact ih hrec
          | true =>
              cases o with
              | ok u => simp [isKillSuccess] at hP
              | error u =>
                  simp [step, emergencyKillSwitch] at hrec ⊢; exact ih hrec
      | minimizeClick => simp [step, minimizePanel] at hrec ⊢; exact ih hrec
      | closeClick => simp [step, closePanel] at hrec ⊢; exact ih hrec
      | voiceActivationToggle b => simp [step] at hrec ⊢; exact ih hrec
      | autoTranscribeToggle b => simp [step] at hrec ⊢; exact ih hrec
      | smartResponseToggle b => simp [step] at hrec ⊢; exact ih hrec

/-- Witness for the C5 amendment at the reachable state right after a
recording starts. -/
theorem recording_invariant_no_kill_witness :
    (step initState .recordClick).dom.stopBtnDisabled = false
    ∧ (step initState .recordClick).dom.recordBtnDisabled = true :=
  recording_invariant_no_kill (step initState .recordClick)
    (ReachableFrom.next ReachableFrom.init (by decide) (by decide)) (by decide)

/-- C4 counterexample: start, stop (the record button is re-enabled before
the `process_audio` call settles), start again during Processing, then let
the call settle: the settle transition lands in Recording, not Idle. -/
theorem recording_phase_counterexample :
    ReachableFrom (fun _ => True)
      (step (step (step initState .recordClick) .stopClick) .recordClick)
    ∧ eventEnabled (step (step (step initState .recordClick) .stopClick) .recordClick)
        (.audioSettle ⟨0, "", ""⟩ (.ok "x")) = true
    ∧ phase (step (step (step initState .recordClick) .stopClick) .recordClick) = .Processing
    ∧ phase (step (step (step (step initState .recordClick) .stopClick) .recordClick)
        (.audioSettle ⟨0, "", ""⟩ (.ok "x"))) = .Recording := by
  refine ⟨?_, by decide, by decide, by decide⟩
  exact ReachableFrom.next
    (ReachableFrom.next
      (ReachableFrom.next ReachableFrom.init trivial (by decide)) trivial (by decide))
    trivial (by decide)

/-- C4 amended: a record click in Idle moves to Recording; initiating a
stop from Recording (via either button) moves to Processing; a settling
`process_audio` call returns to Idle — for success and failure alike —
provided it is the only in-flight call and no new recording was started
while it was in flight; and every event other than the record/stop clicks
and the settle leaves the phase unchanged. -/
theorem recording_phase_machine (s : AppState) (t : Instant) (o : Except Unit String)
    (e : Event) :
    (phase s = .Idle → phase (step s .recordClick) = .Recording)
    ∧ (phase s = .Recording → phase (step s .recordClick) = .Processing)
    ∧ (phase s = .Recording → phase (step s .stopClick) = .Processing)
    ∧ (s.pendingAudio = 1 → s.isRecording = false →
        phase (step s (.audioSettle t o)) = .Idle)
    ∧ (phaseRelevant e = false → phase (step s e) = phase s) := by
  refine ⟨?_, ?_, ?_, ?_, ?_⟩
  · intro h
    unfold phase at h
    split_ifs at h with h1 h2
    simp_all
    simp [step, h2, startRecording, phase, h1]
  · intro h
    unfold phase at h
    split_ifs at h with h1 h2
    simp_all
    simp [step, h2, stopRecordingBegin, phase]
  · intro h
    unfold phase at h
    split_ifs at h with h1 h2
    simp_all
    simp [step, stopRecordingBegin, phase]
  · intro hp hrec
    cases o <;>
      simp [step, stopRecordingSettle, addChatMessage, updateAudioClipsList, phase, hp, hrec]
  · intro hrel
    cases e with
    | initLoad t' o' =>
        cases o' <;> simp [step, loadInitialData, addChatMessage, phase]
    | typeChat text => simp [step, phase]
    | typeAdmin text => simp [step, phase]
    | sendMsg t1 t2 o' =>
        by_cases hm : jsTrim s.dom.chatInputValue = "" <;> cases o' <;>
          simp [step, sendMessage, hm, addChatMessage, phase]
    | recordClick => simp [phaseRelevant] at hrel
    | stopClick => simp [phaseRelevant] at hrel
    | audioSettle t' o' => simp [phaseRelevant] at hrel
    | verifyAdminClick =>
        by_cases hc : s.dom.adminCodeValue = "" <;> simp [step, verifyAdminCode, hc, phase]
    | modelChange m t' => simp [step, switchModel, addChatMessage, phase]
    | themeChange th => simp [step, switchTheme, phase]
    | killSwitchClick c t' o' =>
        cases c <;> cases o' <;> simp [step, emergencyKillSwitch, addChatMessage, phase]
    | minimizeClick => simp [step, minimizePanel, phase]
    | closeClick => simp [step, closePanel, phase]
    | voiceActivationToggle b => simp [step, phase]
    | autoTranscribeToggle b => simp [step, phase]
    | smartResponseToggle b => simp [step, phase]

/-- Witness for the C4 amendment along the concrete straight-line
lifecycle and a phase-neutral theme change. -/
theorem recording_phase_machine_witness :
    phase (step initState .recordClick) = .Recording
    ∧ phase (step (step initState .recordClick) .stopClick) = .Processing
    ∧ phase (step (step (step initState .recordClick) .stopClick)
        (.audioSettle ⟨0, "", ""⟩ (.error ()))) = .Idle
    ∧ phase (step initState (.themeChange "dark")) = phase initState :=
  ⟨(recording_phase_machine initState ⟨0, "", ""⟩ (.error ()) (.themeChange "dark")).1 (by decide),
   (recording_phase_machine (step initState .recordClick) ⟨0, "", ""⟩ (.error ())
      (.themeChange "dark")).2.2.1 (by decide),
   (recording_phase_machine (step (step initState .recordClick) .stopClick) ⟨0, "", ""⟩
      (.error ()) (.themeChange "dark")).2.2.2.1 (by decide) (by decide),
   (recording_phase_machine initState ⟨0, "", ""⟩ (.error ())
      (.themeChange "dark")).2.2.2.2 (by decide)⟩

/-- Pointwise agreement of the render-loop body with the spec's sample
description at the `k`-th 5-degree step. -/
theorem wavePointCmd_eq_specSamplePoint (trig : Trig) (w h time : ℚ) (rec : Bool) (k : Nat) :
    wavePointCmd trig (w / 2) (h / 2) 80 time rec (5 * k) =
      specSamplePoint trig w h time rec k := by
  have hcond : (5 * k = 0) = (k = 0) := propext (by omega)
  cases rec <;> by_cases hk0 : k = 0 <;>
    simp [wavePointCmd, specSamplePoint, specRadialOffset, hcond, hk0] <;>
    constructor <;> ring_nf <;> exact Or.inl trivial

/-- Unrolling of the render loop: from counter `i` with `n` iterations
left, the loop emits exactly the samples at `i, i+5, …, i+5(n-1)`. -/
theorem waveLoop_eq_map (trig : Trig) (cX cY radius time : ℚ) (rec : Bool) :
    ∀ (n i : Nat), i + 5 * n = 360 →
      waveLoop trig cX cY radius time rec i =
        (List.range n).map (fun k => wavePointCmd trig cX cY radius time rec (i + 5 * k))
  | 0, i, hni => by
      have hi : ¬ i < 360 := by omega
      rw [waveLoop]
      simp [hi]
  | n + 1, i, hni => by
      have hi : i < 360 := by omega
      rw [waveLoop]
      rw [dif_pos hi]
      rw [waveLoop_eq_map trig cX cY radius time rec n (i + 5) (by omega)]
      rw [List.range_succ_eq_map, List.map_cons, List.map_map]
      congr 1
      refine List.map_congr_left ?_
      intro a _
      simp only [Function.comp_apply]
      congr 1
      omega

/-- C9: each animation tick clears the surface, strokes the fixed-radius
reference circle, then strokes the deformed circle whose radial offset at
each sampled angle is the flag-dependent sum of sines of the elapsed time —
two superimposed frequencies with amplitudes 20 and 10 when recording, one
frequency with amplitude 5 otherwise — sampled every 5 degrees over 0–360°
(72 samples, path closed), for every interpretation of the trigonometric
primitives. -/
theorem drawCircularWaveform_matches_spec (trig : Trig) (w h time : ℚ) (rec : Bool) :
    drawCircularWaveform trig w h time rec = specFrame trig w h time rec := by
  simp only [drawCircularWaveform, specFrame]
  congr 1
  congr 1
  rw [waveLoop_eq_map trig (w / 2) (h / 2) 80 time rec 72 0 (by norm_num)]
  refine List.map_congr_left ?_
  intro k _
  simpa using wavePointCmd_eq_specSamplePoint trig w h time rec k
